import Mathlib

/-
Verification of storm_control/hal4000/halLib/halMessage.py.

The module is embedded shallowly:
  * Python objects flowing through the envelope (message data, responses,
    errors, exceptions, callbacks) are an opaque type parameter.
  * Side effects are made explicit as a trace of Effect values: each call to
    hdebug.logText becomes an Effect.logText entry and each invocation of the
    finalizer callback becomes an Effect.finalizerCall entry.
  * Attribute accesses that can fail in Python (self.source.module_name when
    source is None or lacks the attribute) are modelled with Except PyError.
  * The global valid_messages dictionary maps every key to True, so it is
    modelled by its ordered key list; dict assignment of an existing key
    leaves the key list unchanged, assignment of a new key appends it.
  * id(self) has no Lean counterpart, so functions that log take an explicit
    mid : Nat standing for the identity of the object being logged.
-/

namespace HalMessageSpec

/-- PyError models the runtime errors the embedded code can raise. -/
inductive PyError
  | attributeError
deriving DecidableEq

/-- Effect is one observable side effect: a line handed to hdebug.logText, or
one invocation (with no arguments) of a message finalizer callback. -/
inductive Effect
  | logText (s : String)
  | finalizerCall
deriving DecidableEq

/-- countFinalizerCalls counts the finalizer invocations in a trace. -/
def countFinalizerCalls : List Effect → Nat
  | [] => 0
  | Effect.finalizerCall :: rest => countFinalizerCalls rest + 1
  | Effect.logText _ :: rest => countFinalizerCalls rest

/-- HalModule stands for the source object of a message.  Python only ever
reads its module_name attribute here; module_name = none models an object
that lacks the attribute (so reading it raises AttributeError). -/
structure HalModule where
  module_name : Option String
deriving DecidableEq

/-- Embeds valid_messages: the ordered key list of the global dictionary of
valid message types (every value in the dictionary is True). -/
def valid_messages : List String :=
  ["add to ui", "close event", "configure1", "configure2",
   "current parameters", "module", "new directory", "new parameters file",
   "new shutters file", "start", "sync"]

/-- Embeds addMessage(name, check_exists = True): raises a HalException when
check_exists holds and the name is already a key; otherwise assigns
valid_messages[name] = True.  The registry argument is explicit state. -/
def addMessage (reg : List String) (name : String) (check_exists : Bool) :
    Except String (List String) :=
  if check_exists = true ∧ name ∈ reg then
    Except.error ("Message " ++ name ++ " already exists!")
  else
    Except.ok (if name ∈ reg then reg else reg ++ [name])

/-- runCalls applies a sequence of addMessage calls to a registry; a call that
raises leaves the registry unchanged (the exception propagates to the caller,
mutating nothing). -/
def runCalls (reg : List String) : List (String × Bool) → List String
  | [] => reg
  | c :: rest =>
    match addMessage reg c.1 c.2 with
    | Except.ok r => runCalls r rest
    | Except.error _ => runCalls reg rest

/-- Embeds HalMessageBase: the m_type and source fields set by __init__. -/
structure HalMessageBase where
  m_type : String
  source : Option HalModule
deriving DecidableEq

/-- Embeds HalMessageBase.getSource. -/
def HalMessageBase.getSource (b : HalMessageBase) : Option HalModule :=
  b.source

/-- Embeds HalMessageBase.getSourceName, i.e. self.source.module_name, which
raises AttributeError when source is None or lacks module_name. -/
def HalMessageBase.getSourceName (b : HalMessageBase) :
    Except PyError String :=
  match b.source with
  | none => Except.error PyError.attributeError
  | some hm =>
    match hm.module_name with
    | none => Except.error PyError.attributeError
    | some nm => Except.ok nm

/-- Embeds HalMessageBase.getType. -/
def HalMessageBase.getType (b : HalMessageBase) : String :=
  b.m_type

/-- Embeds HalMessage: the fields assigned by HalMessage.__init__ on top of
HalMessageBase.  The type parameter stands for arbitrary Python objects
(message data, finalizer callback, list entries). -/
structure HalMessage (π : Type) extends HalMessageBase where
  data : Option π
  finalizer : Option π
  level : Int
  m_errors : List π
  responses : List π
  sync : Bool
  ref_count : Int
deriving DecidableEq

/-- Embeds HalMessage.logEvent: hands the comma-joined string
[event_name, str(id(self)), self.source.module_name, self.m_type] to
hdebug.logText; mid stands for id(self). -/
def HalMessage.logEvent {π : Type} (m : HalMessage π) (mid : Nat)
    (event_name : String) : Except PyError Effect :=
  match m.source with
  | none => Except.error PyError.attributeError
  | some hm =>
    match hm.module_name with
    | none => Except.error PyError.attributeError
    | some nm =>
      Except.ok (Effect.logText
        (String.intercalate "," [event_name, toString mid, nm, m.m_type]))

/-- Embeds HalMessage.__init__ with every parameter explicit, in the order
(m_type, source) from HalMessageBase.__init__ then (data, sync, level,
finalizer).  It returns the constructed object and the trace of effects;
when level equals 1 it logs a created event, which can raise. -/
def mkHalMessage {π : Type} (mid : Nat) (m_type : String)
    (source : Option HalModule) (data : Option π) (sync : Bool) (level : Int)
    (finalizer : Option π) : Except PyError (HalMessage π × List Effect) :=
  let m : HalMessage π :=
    { m_type := m_type, source := source, data := data,
      finalizer := finalizer, level := level, m_errors := [],
      responses := [], sync := sync, ref_count := 0 }
  if m.level = 1 then
    match m.logEvent mid "created" with
    | Except.ok e => Except.ok (m, [e])
    | Except.error err => Except.error err
  else
    Except.ok (m, [])

/-- mkHalMessageDefault mirrors a Python call HalMessage(m_type, source) that
leaves every optional parameter at its declared default: data = None,
sync = False, level = 1, finalizer = None. -/
def mkHalMessageDefault {π : Type} (mid : Nat) (m_type : String)
    (source : Option HalModule) : Except PyError (HalMessage π × List Effect) :=
  mkHalMessage mid m_type source none false 1 none

/-- Embeds HalMessage.addError: self.m_errors.append(hal_message_error). -/
def HalMessage.addError {π : Type} (m : HalMessage π)
    (hal_message_error : π) : HalMessage π :=
  { m with m_errors := m.m_errors ++ [hal_message_error] }

/-- Embeds HalMessage.addResponse: self.responses.append(value). -/
def HalMessage.addResponse {π : Type} (m : HalMessage π)
    (hal_message_response : π) : HalMessage π :=
  { m with responses := m.responses ++ [hal_message_response] }

/-- Embeds HalMessage.finalize: logs a destroyed event when level equals 1
(which can raise), then calls the finalizer if one is present.  It returns
the (unmodified) object together with the trace of effects, in order. -/
def HalMessage.finalize {π : Type} (m : HalMessage π) (mid : Nat) :
    Except PyError (HalMessage π × List Effect) :=
  match (if m.level = 1 then
           match m.logEvent mid "destroyed" with
           | Except.ok e => Except.ok [e]
           | Except.error err => Except.error err
         else Except.ok []) with
  | Except.error err => Except.error err
  | Except.ok logs =>
    Except.ok (m, logs ++ (match m.finalizer with
      | some _ => [Effect.finalizerCall]
      | none => []))

/-- Embeds HalMessage.getData. -/
def HalMessage.getData {π : Type} (m : HalMessage π) : Option π :=
  m.data

/-- Embeds HalMessage.getErrors. -/
def HalMessage.getErrors {π : Type} (m : HalMessage π) : List π :=
  m.m_errors

/-- Embeds HalMessage.getResponses. -/
def HalMessage.getResponses {π : Type} (m : HalMessage π) : List π :=
  m.responses

/-- Embeds HalMessage.hasErrors: len(self.m_errors) > 0. -/
def HalMessage.hasErrors {π : Type} (m : HalMessage π) : Bool :=
  decide (m.m_errors.length > 0)

/-- Embeds HalMessage.hasResponses: len(self.responses) > 0. -/
def HalMessage.hasResponses {π : Type} (m : HalMessage π) : Bool :=
  decide (m.responses.length > 0)

/-- Embeds HalMessageError: the fields assigned by its __init__. -/
structure HalMessageError (π : Type) where
  message : String
  m_exception : Option π
  source : String
deriving DecidableEq

/-- Embeds HalMessageError.__init__(source, message, m_exception) with the
Python defaults made explicit by the caller. -/
def mkHalMessageError {π : Type} (source : String) (message : String)
    (m_exception : Option π) : HalMessageError π :=
  { message := message, m_exception := m_exception, source := source }

/-- Embeds HalMessageError.getException. -/
def HalMessageError.getException {π : Type} (e : HalMessageError π) :
    Option π :=
  e.m_exception

/-- Embeds HalMessageError.hasException: self.m_exception is not None. -/
def HalMessageError.hasException {π : Type} (e : HalMessageError π) : Bool :=
  e.m_exception.isSome

/-- Embeds HalMessageResponse: the fields assigned by its __init__. -/
structure HalMessageResponse (π : Type) where
  data : Option π
  source : String
deriving DecidableEq

/-- Embeds HalMessageResponse.__init__(source, data). -/
def mkHalMessageResponse {π : Type} (source : String) (data : Option π) :
    HalMessageResponse π :=
  { data := data, source := source }

/-- Embeds HalMessageResponse.getData. -/
def HalMessageResponse.getData {π : Type} (r : HalMessageResponse π) :
    Option π :=
  r.data

/-- Embeds SyncMessage.__init__(source): calls HalMessage.__init__ with
m_type = "sync", the given source, sync = True, and every other parameter
left at its default (data = None, level = 1, finalizer = None). -/
def mkSyncMessage {π : Type} (mid : Nat) (source : Option HalModule) :
    Except PyError (HalMessage π × List Effect) :=
  mkHalMessage mid "sync" source none true 1 none


/-- Sample source module used by the concrete witnesses. -/
def modA : HalModule :=
  { module_name := some "testing.testing" }

/-- Sample level-1 message with a finalizer, used by the concrete witnesses. -/
def msgA : HalMessage Unit :=
  { m_type := "start", source := some modA, data := none, finalizer := some (),
    level := 1, m_errors := [], responses := [], sync := false,
    ref_count := 0 }

/-- Sample level-2 message without a finalizer, used by concrete witnesses. -/
def msgB : HalMessage Unit :=
  { m_type := "close event", source := some modA, data := some (),
    finalizer := none, level := 2, m_errors := [()], responses := [],
    sync := true, ref_count := 3 }

/-- Claim C1: one invocation of finalize performs, in order, (1) when level
equals 1 a destroyed log event, then (2) exactly one invocation of the
finalizer callback when one was supplied at construction and none
otherwise. -/
theorem c1_finalize_effects (π : Type) (m : HalMessage π) (mid : Nat)
    (nm : String)
    (hsrc : m.toHalMessageBase.getSourceName = Except.ok nm) :
    ∃ tr, m.finalize mid = Except.ok (m, tr) ∧
      tr = (if m.level = 1 then
              [Effect.logText (String.intercalate ","
                 ["destroyed", toString mid, nm, m.m_type])]
            else []) ++
           (match m.finalizer with
            | some _ => [Effect.finalizerCall]
            | none => []) ∧
      countFinalizerCalls tr =
        (match m.finalizer with
         | some _ => 1
         | none => 0) := by
  obtain ⟨⟨mt, src⟩, d, f, lv, es, rs, sy, rc⟩ := m
  rcases src with _ | hm
  · simp [HalMessageBase.getSourceName] at hsrc
  rcases hmn : hm.module_name with _ | nm2
  · simp [HalMessageBase.getSourceName, hmn] at hsrc
  · simp only [HalMessageBase.getSourceName, hmn, Except.ok.injEq] at hsrc
    subst hsrc
    rcases f with _ | f <;> by_cases hl : lv = 1 <;>
      simp [HalMessage.finalize, HalMessage.logEvent, hmn, hl,
        countFinalizerCalls]

/-- Witness for C1 at a concrete level-1 message carrying a finalizer. -/
theorem c1_finalize_effects_witness :
    ∃ tr, msgA.finalize 3 = Except.ok (msgA, tr) ∧
      tr = (if msgA.level = 1 then
              [Effect.logText (String.intercalate ","
                 ["destroyed", toString 3, "testing.testing", msgA.m_type])]
            else []) ++
           (match msgA.finalizer with
            | some _ => [Effect.finalizerCall]
            | none => []) ∧
      countFinalizerCalls tr =
        (match msgA.finalizer with
         | some _ => 1
         | none => 0) :=
  c1_finalize_effects Unit msgA 3 "testing.testing" rfl

/-- Claim C2: strict registration of an existing name raises, non-strict
registration of an existing name succeeds and leaves the registry unchanged
(still present, once), and registration of a fresh name always succeeds and
appends it. -/
theorem c2_addMessage_spec (reg : List String) (name : String) :
    (name ∈ reg →
      addMessage reg name true =
        Except.error ("Message " ++ name ++ " already exists!")) ∧
    (name ∈ reg → addMessage reg name false = Except.ok reg) ∧
    (name ∉ reg → ∀ b, addMessage reg name b = Except.ok (reg ++ [name])) := by
  refine ⟨fun h => ?_, fun h => ?_, fun h b => ?_⟩
  · simp [addMessage, h]
  · simp [addMessage, h]
  · simp [addMessage, h]

/-- Witness for C2: the built-in name sync and the fresh name film. -/
theorem c2_addMessage_spec_witness :
    addMessage valid_messages "sync" true =
      Except.error ("Message " ++ "sync" ++ " already exists!") ∧
    addMessage valid_messages "sync" false = Except.ok valid_messages ∧
    addMessage valid_messages "film" true =
      Except.ok (valid_messages ++ ["film"]) :=
  ⟨(c2_addMessage_spec valid_messages "sync").1 (by decide),
   (c2_addMessage_spec valid_messages "sync").2.1 (by decide),
   (c2_addMessage_spec valid_messages "film").2.2 (by decide) true⟩

/-- Claim C4: construction needs a type and a source; the optional parameters
default to no payload, asynchronous, level 1 and no callback; and construction
logs a created event exactly when level equals 1. -/
theorem c4_construction_defaults (π : Type) (mid : Nat) (mt : String)
    (hm : HalModule) (nm : String) (hn : hm.module_name = some nm)
    (d : Option π) (sy : Bool) (lv : Int) (f : Option π) :
    (@mkHalMessageDefault π mid mt (some hm) = Except.ok
      ({ m_type := mt, source := some hm, data := none, finalizer := none,
         level := 1, m_errors := [], responses := [], sync := false,
         ref_count := 0 },
       [Effect.logText (String.intercalate ","
          ["created", toString mid, nm, mt])])) ∧
    (∃ m evs, mkHalMessage mid mt (some hm) d sy lv f = Except.ok (m, evs) ∧
      evs = (if lv = 1 then
               [Effect.logText (String.intercalate ","
                  ["created", toString mid, nm, mt])]
             else [])) := by
  constructor
  · simp [mkHalMessageDefault, mkHalMessage, HalMessage.logEvent, hn]
  · by_cases hl : lv = 1 <;>
      simp [mkHalMessage, HalMessage.logEvent, hn, hl]

/-- Witness for C4 at concrete inputs, one at level 1 and one at level 2. -/
theorem c4_construction_defaults_witness :
    (@mkHalMessageDefault Unit 5 "start" (some modA) = Except.ok
      ({ m_type := "start", source := some modA, data := none,
         finalizer := none, level := 1, m_errors := [], responses := [],
         sync := false, ref_count := 0 },
       [Effect.logText (String.intercalate ","
          ["created", toString 5, "testing.testing", "start"])])) ∧
    (∃ m evs,
      mkHalMessage 5 "start" (some modA) (some ()) true 2 none =
        Except.ok (m, evs) ∧
      evs = (if (2 : Int) = 1 then
               [Effect.logText (String.intercalate ","
                  ["created", toString 5, "testing.testing", "start"])]
             else [])) :=
  c4_construction_defaults Unit 5 "start" modA "testing.testing" rfl
    (some ()) true 2 none

/-- Claim C5: the SyncMessage constructor yields a message of type sync,
synchronous, with the given source, no payload, no callback, and the default
level 1; it carries no application data. -/
theorem c5_sync_message (π : Type) (mid : Nat) (hm : HalModule) (nm : String)
    (hn : hm.module_name = some nm) :
    @mkSyncMessage π mid (some hm) = Except.ok
      ({ m_type := "sync", source := some hm, data := none, finalizer := none,
         level := 1, m_errors := [], responses := [], sync := true,
         ref_count := 0 },
       [Effect.logText (String.intercalate ","
          ["created", toString mid, nm, "sync"])]) := by
  simp [mkSyncMessage, mkHalMessage, HalMessage.logEvent, hn]

/-- Witness for C5 at a concrete source module. -/
theorem c5_sync_message_witness :
    @mkSyncMessage Unit 9 (some modA) = Except.ok
      ({ m_type := "sync", source := some modA, data := none,
         finalizer := none, level := 1, m_errors := [], responses := [],
         sync := true, ref_count := 0 },
       [Effect.logText (String.intercalate ","
          ["created", toString 9, "testing.testing", "sync"])]) :=
  c5_sync_message Unit 9 modA "testing.testing" rfl

/-- Claim C6: hasException holds exactly when the error was constructed with
an exception object, and getException returns exactly what was supplied. -/
theorem c6_error_exception (π : Type) (s msg : String) (exc : Option π) :
    ((mkHalMessageError s msg exc).hasException = true ↔ exc ≠ none) ∧
    (mkHalMessageError s msg exc).getException = exc ∧
    (mkHalMessageError s msg (none : Option π)).hasException = false := by
  refine ⟨?_, rfl, rfl⟩
  rcases exc with _ | e <;>
    simp [mkHalMessageError, HalMessageError.hasException]

/-- Witness for C6 at concrete errors with and without an exception. -/
theorem c6_error_exception_witness :
    ((mkHalMessageError "mod" "bad" (some ())).hasException = true ↔
      (some () : Option Unit) ≠ none) ∧
    (mkHalMessageError "mod" "bad" (some ())).getException = some () ∧
    (mkHalMessageError "mod" "bad" (none : Option Unit)).hasException =
      false :=
  c6_error_exception Unit "mod" "bad" (some ())

/-- Claim C7: addError and addResponse append at the end, preserving the
existing elements and their order, and hasErrors and hasResponses hold
exactly when the respective sequence is non-empty. -/
theorem c7_append_and_has (π : Type) (m : HalMessage π) (e r : π) :
    ((m.addError e).m_errors = m.m_errors ++ [e]) ∧
    ((m.addError e).m_errors.take m.m_errors.length = m.m_errors) ∧
    ((m.addResponse r).responses = m.responses ++ [r]) ∧
    ((m.addResponse r).responses.take m.responses.length = m.responses) ∧
    (m.hasErrors = true ↔ m.m_errors ≠ []) ∧
    (m.hasResponses = true ↔ m.responses ≠ []) := by
  refine ⟨rfl, ?_, rfl, ?_, ?_, ?_⟩
  · simp [HalMessage.addError, List.take_left]
  · simp [HalMessage.addResponse, List.take_left]
  · simp [HalMessage.hasErrors, List.length_pos]
  · simp [HalMessage.hasResponses, List.length_pos]

/-- Witness for C7 at a concrete message with one error and no response. -/
theorem c7_append_and_has_witness :
    ((msgB.addError ()).m_errors = msgB.m_errors ++ [()]) ∧
    ((msgB.addError ()).m_errors.take msgB.m_errors.length =
      msgB.m_errors) ∧
    ((msgB.addResponse ()).responses = msgB.responses ++ [()]) ∧
    ((msgB.addResponse ()).responses.take msgB.responses.length =
      msgB.responses) ∧
    (msgB.hasErrors = true ↔ msgB.m_errors ≠ []) ∧
    (msgB.hasResponses = true ↔ msgB.responses ≠ []) :=
  c7_append_and_has Unit msgB () ()

/-- Helper: a successful addMessage call keeps every name already present. -/
theorem addMessage_mem_mono (reg r : List String) (name x : String)
    (b : Bool) (hx : x ∈ reg) (h : addMessage reg name b = Except.ok r) :
    x ∈ r := by
  unfold addMessage at h
  split at h
  · exact absurd h (by simp)
  · simp only [Except.ok.injEq] at h
    subst h
    by_cases hn : name ∈ reg
    · simpa [hn] using hx
    · simp [hn, List.mem_append]
      exact Or.inl hx

/-- Claim C8: the registry only grows; any sequence of registration calls,
strict or non-strict, preserves every name already registered, the built-in
set included. -/
theorem c8_registry_monotone (calls : List (String × Bool))
    (reg : List String) (x : String) (hx : x ∈ reg) :
    x ∈ runCalls reg calls := by
  induction calls generalizing reg with
  | nil => simpa [runCalls] using hx
  | cons c rest ih =>
    simp only [runCalls]
    rcases h : addMessage reg c.1 c.2 with err | r
    · exact ih reg hx
    · exact ih r (addMessage_mem_mono reg r c.1 x c.2 hx h)

/-- Witness for C8: the built-in name start survives a mixed call sequence
that adds a fresh name, re-registers non-strictly, and fails strictly. -/
theorem c8_registry_monotone_witness :
    "start" ∈ runCalls valid_messages
      [("film", true), ("start", false), ("start", true)] :=
  c8_registry_monotone [("film", true), ("start", false), ("start", true)]
    valid_messages "start" (by decide)

/-- Claim C9: level-1 construction reads the module_name attribute of the
source, so a missing source or a source without that attribute makes
construction (and getSourceName) raise AttributeError; a resolvable source
name is exactly the precondition for level-1 construction to succeed. -/
theorem c9_level1_source (π : Type) (mid : Nat) (mt : String)
    (d : Option π) (sy : Bool) (f : Option π) :
    (mkHalMessage mid mt none d sy 1 f =
      Except.error PyError.attributeError) ∧
    (∀ hm : HalModule, hm.module_name = none →
      mkHalMessage mid mt (some hm) d sy 1 f =
        Except.error PyError.attributeError) ∧
    (HalMessageBase.getSourceName ⟨mt, none⟩ =
      Except.error PyError.attributeError) ∧
    (∀ hm : HalModule, hm.module_name = none →
      HalMessageBase.getSourceName ⟨mt, some hm⟩ =
        Except.error PyError.attributeError) ∧
    (∀ src : Option HalModule,
      (∃ p, mkHalMessage mid mt src d sy 1 f = Except.ok p) ↔
      (∃ nm, HalMessageBase.getSourceName ⟨mt, src⟩ = Except.ok nm)) := by
  refine ⟨?_, fun hm h => ?_, ?_, fun hm h => ?_, fun src => ?_⟩
  · simp [mkHalMessage, HalMessage.logEvent]
  · simp [mkHalMessage, HalMessage.logEvent, h]
  · simp [HalMessageBase.getSourceName]
  · simp [HalMessageBase.getSourceName, h]
  · rcases src with _ | hm
    · simp [mkHalMessage, HalMessage.logEvent,
        HalMessageBase.getSourceName]
    · rcases hmn : hm.module_name with _ | nm <;>
        simp [mkHalMessage, HalMessage.logEvent,
          HalMessageBase.getSourceName, hmn]

/-- Witness for C9 with a missing source, an attribute-less source, and a
well-formed source. -/
theorem c9_level1_source_witness :
    (mkHalMessage 0 "start" none (none : Option Unit) false 1 none =
      Except.error PyError.attributeError) ∧
    (mkHalMessage 0 "start" (some { module_name := none })
        (none : Option Unit) false 1 none =
      Except.error PyError.attributeError) ∧
    ((∃ p, mkHalMessage 0 "start" (some modA) (none : Option Unit) false 1
        none = Except.ok p) ↔
      (∃ nm, HalMessageBase.getSourceName ⟨"start", some modA⟩ =
        Except.ok nm)) :=
  ⟨(c9_level1_source Unit 0 "start" none false none).1,
   (c9_level1_source Unit 0 "start" none false none).2.1
     { module_name := none } rfl,
   (c9_level1_source Unit 0 "start" none false none).2.2.2.2 (some modA)⟩

/-- Claim C10: finalize leaves every field of the message unchanged; its only
outputs besides the unchanged object are the effect trace entries. -/
theorem c10_finalize_frame (π : Type) (m : HalMessage π) (mid : Nat)
    (nm : String)
    (hsrc : m.level = 1 →
      m.toHalMessageBase.getSourceName = Except.ok nm) :
    ∃ m2 evs, m.finalize mid = Except.ok (m2, evs) ∧ m2 = m ∧
      m2.m_type = m.m_type ∧ m2.source = m.source ∧ m2.data = m.data ∧
      m2.finalizer = m.finalizer ∧ m2.level = m.level ∧
      m2.m_errors = m.m_errors ∧ m2.responses = m.responses ∧
      m2.sync = m.sync ∧ m2.ref_count = m.ref_count := by
  have key : ∃ evs, m.finalize mid = Except.ok (m, evs) := by
    obtain ⟨⟨mt, src⟩, d, f, lv, es, rs, sy, rc⟩ := m
    by_cases hl : lv = 1
    · have h1 := hsrc (by simpa using hl)
      rcases src with _ | hm
      · simp [HalMessageBase.getSourceName] at h1
      rcases hmn : hm.module_name with _ | nm2
      · simp [HalMessageBase.getSourceName, hmn] at h1
      · rcases f with _ | f <;>
          simp [HalMessage.finalize, HalMessage.logEvent, hl, hmn]
    · rcases f with _ | f <;>
        simp [HalMessage.finalize, hl]
  obtain ⟨evs, hevs⟩ := key
  exact ⟨m, evs, hevs, rfl, rfl, rfl, rfl, rfl, rfl, rfl, rfl, rfl, rfl⟩

/-- Witness for C10 at a concrete level-1 message with a finalizer. -/
theorem c10_finalize_frame_witness :
    ∃ m2 evs, msgA.finalize 4 = Except.ok (m2, evs) ∧ m2 = msgA ∧
      m2.m_type = msgA.m_type ∧ m2.source = msgA.source ∧
      m2.data = msgA.data ∧ m2.finalizer = msgA.finalizer ∧
      m2.level = msgA.level ∧ m2.m_errors = msgA.m_errors ∧
      m2.responses = msgA.responses ∧ m2.sync = msgA.sync ∧
      m2.ref_count = msgA.ref_count :=
  c10_finalize_frame Unit msgA 4 "testing.testing" (fun _ => rfl)

end HalMessageSpec
